import Mathlib

/-!
# Verification of the Pomodoro timer module (public/js/timer.js)

A shallow embedding of the client-side timer state machine: timer
initialization and control (start / pause / reset / tick), session
accounting on interval completion, per-goal progress tracking, the
per-user local cache, and the reconciliation of loaded sessions with the
live goal dropdown.

Modelling conventions:
* Module-level mutable variables (`timeLeft`, `isRunning`, `isPaused`,
  `isWorkTime`, `workMinutes`, `breakMinutes`, `startTime`, `sessions`,
  `currentPomodoroCount`, `totalPomodoros`) become fields of
  `TimerJsState`; each JS function becomes a state-to-state function.
* Timestamps (`new Date()`, `Date.getTime()`) are integers: milliseconds
  since the epoch.  `toISOString` / `new Date(iso)` round-trip at
  millisecond precision, so a serialized datetime is modelled by the
  timestamp it denotes.
* DOM elements are modelled as present (every `if (element)` existence
  guard taken positively); their user-visible attributes (`disabled`,
  text content, input values) are fields of the state.  A numeric input
  or attribute read through `parseInt` is modelled as `Option Int`
  (`none` = `NaN`, i.e. unparsable); the JS idiom `parseInt(x) || d`
  is `jsOrInt`, which also replaces `0` because `0` is falsy.
* `setInterval` ticking: the interval callback is the `tick` event; it
  can fire exactly while `isRunning` is true (start installs the
  interval, and pause / reset / completion clear it in the source, in
  lock-step with `isRunning`).  `setTimeout(() => startTimer(), d)`
  becomes the field `pendingAutoStart := some d`; the `timeoutFire`
  event consumes it and calls `startTimer`.
* Network calls are fire-and-forget: `markGoalAsCompleted` appends the
  goal id to `goalCompleteCalls`, `saveSession` appends the record to
  `savedToServer`.  Their asynchronous response handlers are not part of
  the synchronous state machine.
* `localStorage` for the per-user key `pomodoro_sessions_<userId>` is the
  field `cache`.
* `sessionsCompleted` (declared in the source but never read or written
  after initialization) is omitted.
-/

/-- A completed-session record, as built by `completeSession`
(`{ startTime, endTime, duration, isWorkSession, goalId, goalText,
pomodoroNumber, totalPomodoros }`).  `goalId = none` models the JS
`null` / empty-string select value. -/
structure Session where
  startTime : Int
  endTime : Int
  duration : Int
  isWorkSession : Bool
  goalId : Option String
  goalText : Option String
  pomodoroNumber : Nat
  totalPomodoros : Nat
deriving DecidableEq, Repr

/-- A session as serialized into the local cache: `completeSession` maps
each in-memory record through
`{ ...s, startTime: s.startTime.toISOString(), endTime: s.endTime.toISOString() }`
before `JSON.stringify`.  The ISO-8601 datetime strings are modelled by
the millisecond timestamps they denote (the `Date ↔ ISO` round trip is
the identity at this granularity). -/
structure StoredSession where
  startTimeIso : Int
  endTimeIso : Int
  duration : Int
  isWorkSession : Bool
  goalId : Option String
  goalText : Option String
  pomodoroNumber : Nat
  totalPomodoros : Nat
deriving DecidableEq, Repr

/-- The serialization step of the `localStorage.setItem` call in
`completeSession` (lines 207-211 of timer.js). -/
def serializeSession (s : Session) : StoredSession :=
  { startTimeIso := s.startTime
    endTimeIso := s.endTime
    duration := s.duration
    isWorkSession := s.isWorkSession
    goalId := s.goalId
    goalText := s.goalText
    pomodoroNumber := s.pomodoroNumber
    totalPomodoros := s.totalPomodoros }

/-- The revival step of `loadSessions`:
`{ ...session, startTime: new Date(...), endTime: new Date(...),
goalText: session.goalText || 'Goal info not available' }`. -/
def reviveSession (s : StoredSession) : Session :=
  { startTime := s.startTimeIso
    endTime := s.endTimeIso
    duration := s.duration
    isWorkSession := s.isWorkSession
    goalId := s.goalId
    goalText := some (s.goalText.getD "Goal info not available")
    pomodoroNumber := s.pomodoroNumber
    totalPomodoros := s.totalPomodoros }

/-- The whole mutable state of the timer module plus the DOM attributes
it reads and writes. -/
structure TimerJsState where
  /-- `timeLeft`: seconds remaining in the current interval. -/
  timeLeft : Int
  /-- `isRunning` -/
  isRunning : Bool
  /-- `isPaused` -/
  isPaused : Bool
  /-- `isWorkTime`: work session (`true`) or break (`false`). -/
  isWorkTime : Bool
  /-- `workMinutes` -/
  workMinutes : Int
  /-- `breakMinutes` -/
  breakMinutes : Int
  /-- `startTime`: start timestamp of the current session (ms). -/
  startTime : Int
  /-- `sessions`: the in-memory session log. -/
  sessions : List Session
  /-- `currentPomodoroCount` -/
  currentPomodoroCount : Nat
  /-- `totalPomodoros` -/
  totalPomodoros : Nat
  /-- `parseInt(document.getElementById('work-minutes').value)`:
  the parsed content of the work-minutes input (`none` = `NaN`). -/
  workMinutesValue : Option Int
  /-- parsed content of the break-minutes input. -/
  breakMinutesValue : Option Int
  /-- `goalSelect.value` (`""` when no goal is selected). -/
  goalValue : String
  /-- `goalSelect.options[goalSelect.selectedIndex].text` when
  `selectedIndex >= 0`, otherwise `none`. -/
  goalSelectedText : Option String
  /-- `data-estimated-pomodoros` of the selected option, through
  `parseInt` (`none` = `NaN` / attribute absent). -/
  goalEstimatedPomodoros : Option Nat
  /-- `#status-text` content. -/
  statusText : String
  /-- `#start-btn` `disabled` attribute. -/
  startBtnDisabled : Bool
  /-- `#start-btn` label (`Start` / `Resume`). -/
  startBtnLabel : String
  /-- `#pause-btn` `disabled` attribute. -/
  pauseBtnDisabled : Bool
  /-- `#work-minutes` `disabled` attribute. -/
  workInputDisabled : Bool
  /-- `#break-minutes` `disabled` attribute. -/
  breakInputDisabled : Bool
  /-- `#goal-select` `disabled` attribute. -/
  goalSelectDisabled : Bool
  /-- the `localStorage` entry `pomodoro_sessions_<userId>`
  (`none` = key absent). -/
  cache : Option (List StoredSession)
  /-- a pending `setTimeout(() => startTimer(), d)`, recorded as `some d`. -/
  pendingAutoStart : Option Nat
  /-- goal ids for which `markGoalAsCompleted` issued
  `POST /goals/:id/complete`. -/
  goalCompleteCalls : List String
  /-- records submitted by `saveSession` via `POST /goals/pomodoro`. -/
  savedToServer : List Session
deriving DecidableEq, Repr

/-- JS `parseInt(x) || d`: the default replaces both `NaN` (unparsable)
and `0`, because both are falsy. -/
def jsOrInt : Option Int → Int → Int
  | none, d => d
  | some 0, d => d
  | some n, _ => n

/-- `jsOrInt` for the natural-valued `data-estimated-pomodoros`. -/
def jsOrNat : Option Nat → Nat → Nat
  | none, d => d
  | some 0, d => d
  | some n, _ => n

/-- `initTimer()`: re-read the duration inputs (with the `|| 25` and
`|| 5` fallbacks) and load `timeLeft` from the work duration.
`updateDisplay()` only rewrites the MM:SS text and is state-free. -/
def initTimer (s : TimerJsState) : TimerJsState :=
  let workMinutes := jsOrInt s.workMinutesValue 25
  let breakMinutes := jsOrInt s.breakMinutesValue 5
  { s with
    workMinutes := workMinutes
    breakMinutes := breakMinutes
    timeLeft := workMinutes * 60 }

/-- status text written by `startTimer` during a work interval. -/
def workStatusText (count total : Nat) : String :=
  "Work Time (Pomodoro " ++ toString (count + 1) ++ " of " ++ toString total ++ ")"

/-- status text written by break completion. -/
def readyStatusText (count total : Nat) : String :=
  "Ready for Pomodoro " ++ toString (count + 1) ++ " of " ++ toString total

/-- `startTimer()` at time `now`.  Guarded by `if (!isRunning)`: a call
while running is a no-op (and installs no second interval).  When not
running: resuming from pause clears `isPaused` (keeping `startTime`),
otherwise a fresh session records `startTime = now`; then `isRunning`
is set, the status text updated, the inputs locked, and the countdown
interval installed. -/
def startTimer (now : Int) (s : TimerJsState) : TimerJsState :=
  if s.isRunning then s
  else
    let s :=
      if s.isPaused then { s with isPaused := false }
      else { s with startTime := now }
    { s with
      isRunning := true
      statusText :=
        if s.isWorkTime then
          workStatusText s.currentPomodoroCount s.totalPomodoros
        else "Break Time"
      startBtnDisabled := true
      pauseBtnDisabled := false
      workInputDisabled := true
      breakInputDisabled := true
      goalSelectDisabled := true }

/-- `pauseTimer()`: only from running; clears the interval, sets
`isPaused`, clears `isRunning`, relabels the start button `Resume`. -/
def pauseTimer (s : TimerJsState) : TimerJsState :=
  if s.isRunning then
    { s with
      isPaused := true
      isRunning := false
      statusText := "Paused"
      startBtnDisabled := false
      startBtnLabel := "Resume"
      pauseBtnDisabled := true }
  else s

/-- `resetTimer()`: clears the interval, resets the running / paused /
phase flags and `currentPomodoroCount`, restores the UI to its ready
state, and re-runs `initTimer()`.  (`updateProgressDisplay()` is
display-only.)  Note it touches neither `sessions` nor any pending
`setTimeout`. -/
def resetTimer (s : TimerJsState) : TimerJsState :=
  initTimer
    { s with
      isRunning := false
      isPaused := false
      isWorkTime := true
      statusText := "Ready to start"
      currentPomodoroCount := 0
      startBtnLabel := "Start"
      startBtnDisabled := false
      pauseBtnDisabled := true
      workInputDisabled := false
      breakInputDisabled := false
      goalSelectDisabled := false }

/-- delay (ms) of the auto-start scheduled after a non-terminal work
completion (`setTimeout(..., 300)`, line 262-264). -/
def workToBreakDelayMs : Nat := 300

/-- delay (ms) of the auto-start scheduled after a break completion with
pomodoros remaining (`setTimeout(..., 1500)`, line 289-291). -/
def breakToWorkDelayMs : Nat := 1500

/-- `completeSession()` at time `endTime = new Date()`.

Work branch: increments `currentPomodoroCount`; snapshots the bound
goal's id (`goalSelect.value`, `null` when empty) and label
(`options[selectedIndex].text`, kept only when a goal id is bound and an
option is actually selected); builds the record with
`duration = Math.floor((endTime - startTime) / 1000)`; appends it to
`sessions`; re-serializes the whole log to the local cache; submits it
to the server.  Then the terminal check
`currentPomodoroCount >= totalPomodoros`: terminal resets to a ready
work phase, unlocks every input, and issues `markGoalAsCompleted` when
a goal id is bound; non-terminal switches to break and schedules
`startTimer` after `workToBreakDelayMs`.

Break branch: returns to the work phase; when
`currentPomodoroCount < totalPomodoros` it schedules `startTimer` after
`breakToWorkDelayMs` and leaves the inputs locked, otherwise it unlocks
them. -/
def completeSession (endTime : Int) (s : TimerJsState) : TimerJsState :=
  if s.isWorkTime then
    let currentPomodoroCount := s.currentPomodoroCount + 1
    let goalId : Option String :=
      if s.goalValue ≠ "" then some s.goalValue else none
    let selectedGoalText : Option String :=
      if goalId.isSome then s.goalSelectedText else none
    let session : Session :=
      { startTime := s.startTime
        endTime := endTime
        duration := Int.fdiv (endTime - s.startTime) 1000
        isWorkSession := true
        goalId := goalId
        goalText := selectedGoalText
        pomodoroNumber := currentPomodoroCount
        totalPomodoros := s.totalPomodoros }
    let sessions := s.sessions ++ [session]
    let s :=
      { s with
        currentPomodoroCount := currentPomodoroCount
        sessions := sessions
        cache := some (sessions.map serializeSession)
        savedToServer := s.savedToServer ++ [session] }
    if s.currentPomodoroCount ≥ s.totalPomodoros then
      { s with
        isWorkTime := true
        timeLeft := s.workMinutes * 60
        isRunning := false
        statusText := "Task Completed! 🎉"
        startBtnDisabled := false
        pauseBtnDisabled := true
        workInputDisabled := false
        breakInputDisabled := false
        goalSelectDisabled := false
        goalCompleteCalls :=
          match goalId with
          | some g => s.goalCompleteCalls ++ [g]
          | none => s.goalCompleteCalls }
    else
      { s with
        isWorkTime := false
        timeLeft := s.breakMinutes * 60
        isRunning := false
        statusText := "Break Time"
        pendingAutoStart := some workToBreakDelayMs }
  else
    let s :=
      { s with
        isWorkTime := true
        timeLeft := s.workMinutes * 60
        isRunning := false
        statusText := readyStatusText s.currentPomodoroCount s.totalPomodoros
        startBtnDisabled := false
        pauseBtnDisabled := true }
    if s.currentPomodoroCount < s.totalPomodoros then
      { s with pendingAutoStart := some breakToWorkDelayMs }
    else
      { s with
        workInputDisabled := false
        breakInputDisabled := false
        goalSelectDisabled := false }

/-- one firing of the `setInterval` countdown callback at time `now`
(`now` is the `new Date()` a completion would observe): decrement
`timeLeft`; at `timeLeft <= 0` clear the interval and run
`completeSession`.  The callback exists exactly while `isRunning`. -/
def tick (now : Int) (s : TimerJsState) : TimerJsState :=
  if s.isRunning then
    let s := { s with timeLeft := s.timeLeft - 1 }
    if s.timeLeft ≤ 0 then completeSession now s else s
  else s

/-- `updateCurrentGoalDisplay()` (state-relevant part): with a goal
selected, reset `currentPomodoroCount` and load `totalPomodoros` from
the option's `data-estimated-pomodoros` (`parseInt(...) || 1`); with
none selected, reset both to their defaults. -/
def updateCurrentGoalDisplay (s : TimerJsState) : TimerJsState :=
  if s.goalValue ≠ "" then
    { s with
      currentPomodoroCount := 0
      totalPomodoros := jsOrNat s.goalEstimatedPomodoros 1 }
  else
    { s with
      totalPomodoros := 1
      currentPomodoroCount := 0 }

/-- the result of `getUrlParams()`. -/
structure UrlParams where
  goalId : Option String
  duration : Int
  breakDuration : Int
  autoStart : Bool
deriving DecidableEq, Repr

/-- `getUrlParams()`: `duration` and `breakDuration` go through
`parseInt(params.get(...)) || default` (`parseInt(null)` is `NaN`, so an
absent parameter is `none` too); `autoStart` is true exactly for the raw
strings `"true"` and `"1"`. -/
def getUrlParams (goalId : Option String) (durationRaw breakDurationRaw : Option Int)
    (autoStartRaw : Option String) : UrlParams :=
  { goalId := goalId
    duration := jsOrInt durationRaw 25
    breakDuration := jsOrInt breakDurationRaw 5
    autoStart := autoStartRaw == some "true" || autoStartRaw == some "1" }

/-- the top-level names bound in timer.js (module variables and function
declarations).  Used to model identifier resolution in `loadSessions`. -/
def timerTopLevelNames : List String :=
  ["timer", "timeLeft", "isRunning", "isPaused", "isWorkTime",
   "workMinutes", "breakMinutes", "sessionsCompleted", "startTime",
   "sessions", "autoStartTimer", "currentPomodoroCount", "totalPomodoros",
   "initTimer", "updateDisplay", "startTimer", "pauseTimer", "resetTimer",
   "completeSession", "markGoalAsCompleted", "saveSession",
   "updateSessionsDisplay", "updateProgressDisplay",
   "updateCurrentGoalDisplay", "getUrlParams", "initFromUrlParams",
   "loadSessions", "matchGoalIdsWithDropdown", "initTimerPage"]

/-- milliseconds per day, for the `setHours(0, 0, 0, 0)` day-boundary
comparison.  The local-time offset is abstracted to zero (UTC). -/
def msPerDay : Int := 86400000

/-- `date.setHours(0,0,0,0); date.getTime()` equality between two
timestamps: same calendar day. -/
def sameLocalDay (a b : Int) : Bool :=
  Int.fdiv a msPerDay = Int.fdiv b msPerDay

/-- The `try` block of `loadSessions` on a present cache entry, at page
load time `now`.  It first assigns the revived list to `sessions`
(line 605), then evaluates
`sessions = allSessions.filter(session => ...)` (line 619).  The name
`allSessions` is bound nowhere in the module (see `timerTopLevelNames`),
so that statement throws a `ReferenceError` instead of filtering the
just-parsed list to today's records. -/
def loadSessionsTryBlock (saved : List StoredSession) (now : Int) :
    Except String (List Session) :=
  let parsed := saved.map reviveSession
  if timerTopLevelNames.contains "allSessions" then
    Except.ok (parsed.filter fun sess => sameLocalDay sess.startTime now)
  else
    Except.error "ReferenceError: allSessions is not defined"

/-- `loadSessions()` at page-load time `now`: reads the per-user cache
entry only when `sessions.length === 0` (i.e. the server provided no
sessions); on a parse/evaluation error inside the `try` block the
`catch` sets `sessions = []`. -/
def loadSessions (now : Int) (s : TimerJsState) : TimerJsState :=
  if s.sessions.length = 0 then
    match s.cache with
    | some saved =>
      match loadSessionsTryBlock saved now with
      | Except.ok l => { s with sessions := l }
      | Except.error _ => { s with sessions := [] }
    | none => s
  else s

/-- the `availableGoals` object built by `matchGoalIdsWithDropdown` from
the dropdown options `(value, text)`: options with a falsy (empty)
`value` are skipped; for duplicate values the last assignment wins, so
lookup finds the last matching option. -/
def goalLookup (options : List (String × String)) (id : String) : Option String :=
  ((options.filter fun o => o.1 ≠ "").reverse.find? fun o => o.1 = id).map fun o => o.2

/-- the per-session update inside `matchGoalIdsWithDropdown`: refresh
`goalText` from the dropdown only when the session has a goal id that is
present there; otherwise keep the stored text verbatim. -/
def matchSessionGoal (options : List (String × String)) (sess : Session) : Session :=
  match sess.goalId with
  | some g =>
    match goalLookup options g with
    | some t => { sess with goalText := some t }
    | none => sess
  | none => sess

/-- `matchGoalIdsWithDropdown()` over the dropdown options and the
session log.  (The early `return` on an empty log equals mapping over
the empty list.) -/
def matchGoalIdsWithDropdown (options : List (String × String))
    (sessionLog : List Session) : List Session :=
  sessionLog.map (matchSessionGoal options)

/-- the events driving the state machine: the user buttons, the
countdown interval callback, and the firing of a scheduled auto-start. -/
inductive Event where
  | start (now : Int)
  | pause
  | reset
  | tick (now : Int)
  | timeoutFire (now : Int)
deriving DecidableEq, Repr

/-- one event step. -/
def step (s : TimerJsState) : Event → TimerJsState
  | Event.start now => startTimer now s
  | Event.pause => pauseTimer s
  | Event.reset => resetTimer s
  | Event.tick now => tick now s
  | Event.timeoutFire now =>
    match s.pendingAutoStart with
    | some _ => startTimer now { s with pendingAutoStart := none }
    | none => s

/-- run a sequence of events. -/
def run (s : TimerJsState) (es : List Event) : TimerJsState :=
  es.foldl step s

/-- the module state right after page load with no goal bound and no
server sessions: the initializers of the module variables (lines 12-24)
followed by `initTimer()` with the duration inputs holding `workVal` /
`breakVal`. -/
def pageLoadState (workVal breakVal : Option Int) : TimerJsState :=
  initTimer
    { timeLeft := 0
      isRunning := false
      isPaused := false
      isWorkTime := true
      workMinutes := 25
      breakMinutes := 5
      startTime := 0
      sessions := []
      currentPomodoroCount := 0
      totalPomodoros := 1
      workMinutesValue := workVal
      breakMinutesValue := breakVal
      goalValue := ""
      goalSelectedText := none
      goalEstimatedPomodoros := none
      statusText := "Ready to start"
      startBtnDisabled := false
      startBtnLabel := "Start"
      pauseBtnDisabled := true
      workInputDisabled := false
      breakInputDisabled := false
      goalSelectDisabled := false
      cache := none
      pendingAutoStart := none
      goalCompleteCalls := []
      savedToServer := [] }

/-- the event sequence of the C1 counterexample: one-minute work
duration, no goal bound (`totalPomodoros = 1`); run a work interval to
completion (terminal branch), then press the re-enabled start button
and run a second work interval to completion. -/
def c1Trace : List Event :=
  Event.start 0 :: (List.replicate 60 (Event.tick 60000) ++
    (Event.start 100000 :: List.replicate 60 (Event.tick 160000)))

/-- a guarded trace: a single work interval run to its terminal
completion, with no further start. -/
def c1OkTrace : List Event :=
  Event.start 0 :: List.replicate 60 (Event.tick 60000)

/-- Scenario B setup: a goal `g1` with `data-estimated-pomodoros = 3`
selected, one-minute work and break durations. -/
def scenarioBInit : TimerJsState :=
  updateCurrentGoalDisplay
    { pageLoadState (some 1) (some 1) with
      goalValue := "g1"
      goalSelectedText := some "Write thesis"
      goalEstimatedPomodoros := some 3 }

/-- Scenario B events: start, Work #1 runs out (auto-advance to break
scheduled), the 300 ms timeout fires, the break runs out (auto-advance
scheduled), the 1500 ms timeout fires into Work #2. -/
def scenarioBTrace : List Event :=
  Event.start 0 :: (List.replicate 60 (Event.tick 60000) ++
    (Event.timeoutFire 60300 :: (List.replicate 60 (Event.tick 120300) ++
      [Event.timeoutFire 121800])))

/-- the state after one completed one-minute work session (started at
epoch 0, completed at 60000 ms): its `cache` holds the serialized log. -/
def cachedOneSessionState : TimerJsState :=
  run (pageLoadState (some 1) (some 5))
    (Event.start 0 :: List.replicate 60 (Event.tick 60000))

/-- a fresh page load on the same day (time 60000 ms) with that cache
present and no server sessions, after `loadSessions` ran. -/
def reloadedState : TimerJsState :=
  loadSessions 60000
    { pageLoadState (some 1) (some 5) with cache := cachedOneSessionState.cache }

/-- a cached session whose goal was renamed to `Goal A` in the dropdown. -/
def renamedSession : Session :=
  { startTime := 0, endTime := 60000, duration := 60, isWorkSession := true
    goalId := some "a", goalText := some "Old Name"
    pomodoroNumber := 1, totalPomodoros := 2 }

/-- a cached session whose goal was deleted from the dropdown. -/
def orphanSession : Session :=
  { startTime := 0, endTime := 60000, duration := 60, isWorkSession := true
    goalId := some "deleted", goalText := some "Kept Label"
    pomodoroNumber := 2, totalPomodoros := 2 }

/-- a dropdown with the usual empty placeholder option and one goal. -/
def demoOptions : List (String × String) :=
  [("", "-- Select a goal --"), ("a", "Goal A")]

/-- strengthened invariant for the C1 induction: the completed count is
bounded by the target, and is strictly below it whenever a work
interval is actually running (its completion will increment the
count). -/
def TimerInv (s : TimerJsState) : Prop :=
  s.currentPomodoroCount ≤ s.totalPomodoros ∧
  (s.isRunning = true → s.isWorkTime = true →
    s.currentPomodoroCount < s.totalPomodoros)

/-- the side condition of the amended C1: `startTimer` — via the start
button or a firing auto-start timeout — is never invoked once
`currentPomodoroCount` has reached `totalPomodoros`. -/
def eventAllowed (s : TimerJsState) : Event → Bool
  | Event.start _ => decide (s.currentPomodoroCount < s.totalPomodoros)
  | Event.timeoutFire _ => decide (s.currentPomodoroCount < s.totalPomodoros)
  | _ => true

/-- every event of the sequence is allowed in the state it fires in. -/
def allowedRun : TimerJsState → List Event → Bool
  | _, [] => true
  | s, e :: es => eventAllowed s e && allowedRun (step s e) es

/-- Claim C3: calling `start()` while the timer is already Running is a
no-op — the whole state (in particular `timeLeft` and `startTime`) is
unchanged, and the `setInterval` branch installing a second countdown is
not executed. -/
theorem startTimer_noop_when_running (now : Int) (s : TimerJsState)
    (h : s.isRunning = true) : startTimer now s = s := by
  simp [startTimer, h]

/-- witness for C3: a concrete running state, obtained by starting the
freshly loaded page, absorbs a second `start()` unchanged. -/
theorem startTimer_noop_when_running_witness :
    startTimer 7 (startTimer 0 (pageLoadState (some 1) (some 5))) =
      startTimer 0 (pageLoadState (some 1) (some 5)) :=
  startTimer_noop_when_running 7 _ (by decide)

/-- Claim C4: `start()` from Idle (not running, not paused) records
`startTime = now` and transitions to Running; `start()` from Paused
clears the paused flag and transitions to Running without touching
`startTime`. -/
theorem startTimer_idle_paused_transitions (now : Int) (s : TimerJsState)
    (h : s.isRunning = false) :
    (s.isPaused = false →
      (startTimer now s).startTime = now ∧
      (startTimer now s).isRunning = true) ∧
    (s.isPaused = true →
      (startTimer now s).isPaused = false ∧
      (startTimer now s).isRunning = true ∧
      (startTimer now s).startTime = s.startTime) := by
  constructor <;> intro hp <;> simp [startTimer, h, hp]

/-- witness for C4: starting the fresh page records the start time and
runs; pausing and starting again resumes without a new start time. -/
theorem startTimer_idle_paused_witness :
    (startTimer 42 (pageLoadState (some 1) (some 5))).startTime = 42 ∧
    (startTimer 42 (pageLoadState (some 1) (some 5))).isRunning = true ∧
    (startTimer 99 (pauseTimer (startTimer 0 (pageLoadState (some 1) (some 5))))).isPaused
      = false ∧
    (startTimer 99 (pauseTimer (startTimer 0 (pageLoadState (some 1) (some 5))))).startTime
      = (pauseTimer (startTimer 0 (pageLoadState (some 1) (some 5)))).startTime := by
  have h0 := startTimer_idle_paused_transitions 42 (pageLoadState (some 1) (some 5))
    (by decide)
  have h1 := startTimer_idle_paused_transitions 99
    (pauseTimer (startTimer 0 (pageLoadState (some 1) (some 5)))) (by decide)
  exact ⟨(h0.1 (by decide)).1, (h0.1 (by decide)).2,
    (h1.2 (by decide)).1, (h1.2 (by decide)).2.2⟩

/-- Claim C10: `reset()` never modifies the session log — the `sessions`
array is returned identically (same list: length, order and every
record) — even though the phase flags, the remaining time and the
completed count are re-initialized. -/
theorem resetTimer_frame_sessions (s : TimerJsState) :
    (resetTimer s).sessions = s.sessions ∧
    (resetTimer s).currentPomodoroCount = 0 ∧
    (resetTimer s).isRunning = false ∧
    (resetTimer s).isPaused = false ∧
    (resetTimer s).isWorkTime = true :=
  ⟨rfl, rfl, rfl, rfl, rfl⟩

/-- Claim C9: a duration input that parses to `0` or does not parse at
all (`NaN`) is silently replaced by the defaults — 25 minutes work,
5 minutes break — by `initTimer`, and the `duration` / `breakDuration`
page bootstrap parameters get the same fallback in `getUrlParams`; no
error state is produced (the functions are total and leave the status
text and session log untouched). -/
theorem duration_fallback_defaults (s : TimerJsState) (g a : Option String)
    (d b : Option Int)
    (hw : s.workMinutesValue = none ∨ s.workMinutesValue = some 0)
    (hb : s.breakMinutesValue = none ∨ s.breakMinutesValue = some 0)
    (hd : d = none ∨ d = some 0) (hbd : b = none ∨ b = some 0) :
    (initTimer s).workMinutes = 25 ∧
    (initTimer s).breakMinutes = 5 ∧
    (initTimer s).timeLeft = 25 * 60 ∧
    (initTimer s).statusText = s.statusText ∧
    (initTimer s).sessions = s.sessions ∧
    (getUrlParams g d b a).duration = 25 ∧
    (getUrlParams g d b a).breakDuration = 5 := by
  rcases hw with hw | hw <;> rcases hb with hb | hb <;>
    rcases hd with hd | hd <;> rcases hbd with hbd | hbd <;>
      simp [initTimer, getUrlParams, jsOrInt, hw, hb, hd, hbd]

/-- witness for C9: an unparsable work input together with a `0` break
input (and the same shapes of URL parameters) fall back to 25 / 5. -/
theorem duration_fallback_defaults_witness :
    (initTimer (pageLoadState none (some 0))).workMinutes = 25 ∧
    (initTimer (pageLoadState none (some 0))).breakMinutes = 5 ∧
    (getUrlParams none none (some 0) none).duration = 25 ∧
    (getUrlParams none none (some 0) none).breakDuration = 5 := by
  have h := duration_fallback_defaults (pageLoadState none (some 0)) none none
    none (some 0) (Or.inl rfl) (Or.inr rfl) (Or.inl rfl) (Or.inr rfl)
  exact ⟨h.1, h.2.1, h.2.2.2.2.2.1, h.2.2.2.2.2.2⟩

/-- Claim C8: reconciling loaded sessions with the live goal dropdown
(`matchGoalIdsWithDropdown`) maps each session individually; a session's
`goalText` is replaced only when its `goalId` is present among the
dropdown's (non-placeholder) options, and every session with no goal id
or with a goal id absent from the dropdown keeps its stored `goalText`
verbatim. -/
theorem goalLabel_retention (options : List (String × String))
    (l : List Session) (sess : Session) :
    matchGoalIdsWithDropdown options l = l.map (matchSessionGoal options) ∧
    (sess.goalId = none → matchSessionGoal options sess = sess) ∧
    (∀ g, sess.goalId = some g → goalLookup options g = none →
      matchSessionGoal options sess = sess) ∧
    (∀ g t, sess.goalId = some g → goalLookup options g = some t →
      matchSessionGoal options sess = { sess with goalText := some t }) := by
  refine ⟨rfl, ?_, ?_, ?_⟩
  · intro h; simp [matchSessionGoal, h]
  · intro g hg hl; simp [matchSessionGoal, hg, hl]
  · intro g t hg hl; simp [matchSessionGoal, hg, hl]

/-- witness for C8 (Scenario D): with a dropdown holding only goal `a`,
a session bound to the deleted goal keeps `Kept Label`, while a session
bound to `a` picks up the renamed text `Goal A`. -/
theorem goalLabel_retention_witness :
    matchSessionGoal demoOptions orphanSession = orphanSession ∧
    matchSessionGoal demoOptions renamedSession =
      { renamedSession with goalText := some "Goal A" } := by
  have h1 := goalLabel_retention demoOptions [] orphanSession
  have h2 := goalLabel_retention demoOptions [] renamedSession
  exact ⟨h1.2.2.1 "deleted" rfl (by decide), h2.2.2.2 "a" "Goal A" rfl (by decide)⟩

/-- Claim C5: when a work interval completes and the incremented count
reaches the target (`currentPomodoroCount + 1 >= totalPomodoros`,
i.e. the code's terminal check after the increment), the machine
returns to a ready Work phase (`isWorkTime`, not running, `timeLeft`
reloaded from the work duration), the count is kept (not reset), every
input — start button, both duration fields, the goal selector — is
unlocked, no auto-advance is scheduled (`pendingAutoStart` untouched),
and `markGoalAsCompleted` is issued exactly when a goal is bound. -/
theorem completeSession_terminal_branch (now : Int) (s : TimerJsState)
    (hw : s.isWorkTime = true)
    (ht : s.totalPomodoros ≤ s.currentPomodoroCount + 1) :
    (completeSession now s).isWorkTime = true ∧
    (completeSession now s).isRunning = false ∧
    (completeSession now s).currentPomodoroCount = s.currentPomodoroCount + 1 ∧
    (completeSession now s).timeLeft = s.workMinutes * 60 ∧
    (completeSession now s).startBtnDisabled = false ∧
    (completeSession now s).workInputDisabled = false ∧
    (completeSession now s).breakInputDisabled = false ∧
    (completeSession now s).goalSelectDisabled = false ∧
    (completeSession now s).pendingAutoStart = s.pendingAutoStart ∧
    (completeSession now s).goalCompleteCalls =
      (if s.goalValue ≠ "" then s.goalCompleteCalls ++ [s.goalValue]
       else s.goalCompleteCalls) := by
  by_cases hg : s.goalValue = "" <;>
    simp [completeSession, hw, ht, hg, ge_iff_le]

/-- witness for C5 (Scenario C): no goal bound and the default target of
one pomodoro — the very first work completion takes the terminal branch
with no Goal Store call and nothing scheduled. -/
theorem completeSession_terminal_branch_witness :
    (completeSession 60000 (pageLoadState (some 1) (some 5))).isRunning = false ∧
    (completeSession 60000 (pageLoadState (some 1) (some 5))).pendingAutoStart = none ∧
    (completeSession 60000 (pageLoadState (some 1) (some 5))).goalCompleteCalls = [] := by
  have h := completeSession_terminal_branch 60000 (pageLoadState (some 1) (some 5))
    (by decide) (by decide)
  refine ⟨h.2.1, ?_, ?_⟩
  · rw [h.2.2.2.2.2.2.2.2.1]; decide
  · rw [h.2.2.2.2.2.2.2.2.2]; decide

/-- Claim C6: completing a Work interval appends exactly one record to
the session log — with `duration = Math.floor((endTime - startTime) / 1000)`
and a snapshot of the bound goal's id and label (the label omitted when
no option is actually selected for that id) — while completing a Break
interval appends none. -/
theorem completeSession_session_record (now : Int) (s : TimerJsState) :
    (s.isWorkTime = true →
      (completeSession now s).sessions = s.sessions ++
        [{ startTime := s.startTime
           endTime := now
           duration := Int.fdiv (now - s.startTime) 1000
           isWorkSession := true
           goalId := if s.goalValue ≠ "" then some s.goalValue else none
           goalText := if s.goalValue ≠ "" then s.goalSelectedText else none
           pomodoroNumber := s.currentPomodoroCount + 1
           totalPomodoros := s.totalPomodoros }]) ∧
    (s.isWorkTime = false → (completeSession now s).sessions = s.sessions) := by
  constructor <;> intro hw
  · by_cases hg : s.goalValue = "" <;>
      by_cases hterm : s.totalPomodoros ≤ s.currentPomodoroCount + 1 <;>
        simp [completeSession, hw, hg, hterm, ge_iff_le]
  · by_cases hrem : s.currentPomodoroCount < s.totalPomodoros <;>
      simp [completeSession, hw, hrem]

/-- witness for C6: the first work completion of the fresh page appends
one record; a break completion right after a non-terminal work
completion in Scenario B appends none. -/
theorem completeSession_session_record_witness :
    (completeSession 60000 (pageLoadState (some 1) (some 5))).sessions.length =
      (pageLoadState (some 1) (some 5)).sessions.length + 1 ∧
    (completeSession 777 (completeSession 60000 scenarioBInit)).sessions =
      (completeSession 60000 scenarioBInit).sessions := by
  have h1 := completeSession_session_record 60000 (pageLoadState (some 1) (some 5))
  have h2 := completeSession_session_record 777 (completeSession 60000 scenarioBInit)
  refine ⟨?_, h2.2 (by decide)⟩
  rw [h1.1 (by decide)]
  simp

set_option maxRecDepth 10000 in
/-- Claim C7: a non-terminal work completion switches to the Break phase
with `timeLeft` reloaded from the break duration and schedules an
automatic restart after the fixed 300 ms delay; a break completion with
pomodoros remaining switches back to the Work phase with `timeLeft`
reloaded from the work duration and schedules the restart after the
fixed 1500 ms delay, which is longer than the work-to-break delay; and
Scenario B (a target-3 goal, Work #1 and the following break completed,
both timeouts fired) lands running in Work #2 with one completed of
three. -/
theorem completeSession_auto_advance (nw nb : Int) (sW sB : TimerJsState)
    (hw : sW.isWorkTime = true)
    (hnt : sW.currentPomodoroCount + 1 < sW.totalPomodoros)
    (hb : sB.isWorkTime = false)
    (hr : sB.currentPomodoroCount < sB.totalPomodoros) :
    (completeSession nw sW).isWorkTime = false ∧
    (completeSession nw sW).timeLeft = sW.breakMinutes * 60 ∧
    (completeSession nw sW).isRunning = false ∧
    (completeSession nw sW).pendingAutoStart = some workToBreakDelayMs ∧
    (completeSession nb sB).isWorkTime = true ∧
    (completeSession nb sB).timeLeft = sB.workMinutes * 60 ∧
    (completeSession nb sB).pendingAutoStart = some breakToWorkDelayMs ∧
    workToBreakDelayMs < breakToWorkDelayMs ∧
    (run scenarioBInit scenarioBTrace).isWorkTime = true ∧
    (run scenarioBInit scenarioBTrace).isRunning = true ∧
    (run scenarioBInit scenarioBTrace).currentPomodoroCount = 1 ∧
    (run scenarioBInit scenarioBTrace).totalPomodoros = 3 := by
  have hterm : ¬ sW.totalPomodoros ≤ sW.currentPomodoroCount + 1 := by omega
  refine ⟨?_, ?_, ?_, ?_, ?_, ?_, ?_, by decide, by decide, by decide, by decide, by decide⟩ <;>
    simp [completeSession, hw, hb, hr, hterm, ge_iff_le]

/-- witness for C7: the concrete Scenario B states — Work #1's
completion schedules the 300 ms auto-advance, and the break completion
after it schedules the 1500 ms one. -/
theorem completeSession_auto_advance_witness :
    (completeSession 60000 scenarioBInit).pendingAutoStart = some workToBreakDelayMs ∧
    (completeSession 120300 (completeSession 60000 scenarioBInit)).pendingAutoStart =
      some breakToWorkDelayMs := by
  have h := completeSession_auto_advance 60000 120300 scenarioBInit
    (completeSession 60000 scenarioBInit) (by decide) (by decide) (by decide) (by decide)
  exact ⟨h.2.2.2.1, h.2.2.2.2.2.2.1⟩


/-- `startTimer` preserves the strengthened invariant provided the
completed count is still below the target. -/
theorem startTimer_inv (now : Int) (s : TimerJsState)
    (hlt : s.currentPomodoroCount < s.totalPomodoros) :
    TimerInv (startTimer now s) := by
  unfold TimerInv
  constructor
  · by_cases hr : s.isRunning <;> by_cases hp : s.isPaused <;>
      simp [startTimer, hr, hp] <;> omega
  · intro _ _
    by_cases hr : s.isRunning <;> by_cases hp : s.isPaused <;>
      simp [startTimer, hr, hp] <;> omega

/-- `pauseTimer` preserves the strengthened invariant: it changes no
count and never ends up running. -/
theorem pauseTimer_inv (s : TimerJsState) (h : TimerInv s) :
    TimerInv (pauseTimer s) := by
  obtain ⟨h1, _⟩ := h
  unfold TimerInv
  constructor
  · by_cases hr : s.isRunning <;> simp [pauseTimer, hr] <;> omega
  · intro hrun _
    by_cases hr : s.isRunning <;> simp [pauseTimer, hr] at hrun

/-- `resetTimer` re-establishes the strengthened invariant from any
state: it zeroes the count and stops the timer. -/
theorem resetTimer_inv (s : TimerJsState) : TimerInv (resetTimer s) := by
  unfold TimerInv resetTimer initTimer
  simp

/-- `completeSession` preserves the strengthened invariant: a work
completion increments a count that was strictly below the target, a
break completion changes no count, and every branch stops the timer. -/
theorem completeSession_inv (now : Int) (s : TimerJsState)
    (h1 : s.currentPomodoroCount ≤ s.totalPomodoros)
    (h2 : s.isWorkTime = true → s.currentPomodoroCount < s.totalPomodoros) :
    TimerInv (completeSession now s) := by
  unfold TimerInv
  constructor
  · by_cases hw : s.isWorkTime
    · have hlt := h2 hw
      by_cases hterm : s.totalPomodoros ≤ s.currentPomodoroCount + 1 <;>
        by_cases hg : s.goalValue = "" <;>
          simp [completeSession, hw, hterm, hg, ge_iff_le] <;> omega
    · by_cases hrem : s.currentPomodoroCount < s.totalPomodoros <;>
        simp [completeSession, hw, hrem] <;> omega
  · intro hrun _
    exfalso
    by_cases hw : s.isWorkTime
    · by_cases hterm : s.totalPomodoros ≤ s.currentPomodoroCount + 1 <;>
        by_cases hg : s.goalValue = "" <;>
          simp [completeSession, hw, hterm, hg, ge_iff_le] at hrun
    · by_cases hrem : s.currentPomodoroCount < s.totalPomodoros <;>
        simp [completeSession, hw, hrem] at hrun

/-- `tick` preserves the strengthened invariant. -/
theorem tick_inv (now : Int) (s : TimerJsState) (h : TimerInv s) :
    TimerInv (tick now s) := by
  obtain ⟨h1, h2⟩ := h
  by_cases hr : s.isRunning
  · by_cases hz : s.timeLeft - 1 ≤ 0
    · have heq : tick now s = completeSession now { s with timeLeft := s.timeLeft - 1 } := by
        simp [tick, hr, hz]
      rw [heq]
      exact completeSession_inv now _ h1 (fun hw => h2 hr hw)
    · have heq : tick now s = { s with timeLeft := s.timeLeft - 1 } := by
        simp [tick, hr, hz]
      rw [heq]
      exact ⟨h1, fun _ hw => h2 hr hw⟩
  · have heq : tick now s = s := by simp [tick, hr]
    rw [heq]
    exact ⟨h1, h2⟩

/-- one allowed step preserves the strengthened invariant. -/
theorem step_preserves_inv (s : TimerJsState) (e : Event)
    (h : TimerInv s) (hall : eventAllowed s e = true) :
    TimerInv (step s e) := by
  cases e with
  | start now =>
    simp only [eventAllowed, decide_eq_true_eq] at hall
    exact startTimer_inv now s hall
  | pause => exact pauseTimer_inv s h
  | reset => exact resetTimer_inv s
  | tick now => exact tick_inv now s h
  | timeoutFire now =>
    simp only [eventAllowed, decide_eq_true_eq] at hall
    unfold step
    cases hps : s.pendingAutoStart with
    | none => exact h
    | some d => exact startTimer_inv now _ hall

/-- an allowed event sequence preserves the strengthened invariant. -/
theorem allowedRun_inv (es : List Event) :
    ∀ s : TimerJsState, TimerInv s → allowedRun s es = true → TimerInv (run s es) := by
  induction es with
  | nil => intro s h _; exact h
  | cons e es ih =>
    intro s h hall
    simp only [allowedRun, Bool.and_eq_true] at hall
    exact ih (step s e) (step_preserves_inv s e h hall.1) hall.2

/-- Claim C1 (amended): along every sequence of start / pause / reset /
tick / auto-start-timeout events from the freshly loaded page in which
`startTimer` is never invoked once `currentPomodoroCount` has reached
`totalPomodoros` (the run's terminal condition), the invariant
`currentPomodoroCount <= totalPomodoros` holds.  The unrestricted claim
is refuted by `completedCount_can_exceed_target`. -/
theorem completedCount_le_target (workVal breakVal : Option Int) (es : List Event)
    (hall : allowedRun (pageLoadState workVal breakVal) es = true) :
    (run (pageLoadState workVal breakVal) es).currentPomodoroCount ≤
      (run (pageLoadState workVal breakVal) es).totalPomodoros := by
  have hinit : TimerInv (pageLoadState workVal breakVal) := by
    constructor
    · exact Nat.zero_le _
    · intro hr _
      exact absurd hr (by simp [pageLoadState, initTimer])
  exact (allowedRun_inv es _ hinit hall).1

set_option maxRecDepth 10000 in
/-- witness for the amended C1: a full guarded run — one work interval
completed to its terminal state, nothing restarted afterwards. -/
theorem completedCount_le_target_witness :
    allowedRun (pageLoadState (some 1) (some 5)) c1OkTrace = true ∧
    (run (pageLoadState (some 1) (some 5)) c1OkTrace).currentPomodoroCount ≤
      (run (pageLoadState (some 1) (some 5)) c1OkTrace).totalPomodoros :=
  ⟨by decide, completedCount_le_target (some 1) (some 5) c1OkTrace (by decide)⟩

set_option maxRecDepth 10000 in
/-- Counterexample to C1 as stated: from the freshly loaded page with a
one-minute work duration and no goal bound (`totalPomodoros = 1`),
completing one work interval reaches the terminal state with the start
button re-enabled and the count not reset; pressing start and completing
a second work interval drives `currentPomodoroCount` to 2, strictly
above `totalPomodoros = 1`. -/
theorem completedCount_can_exceed_target :
    (run (pageLoadState (some 1) (some 5)) c1Trace).totalPomodoros <
      (run (pageLoadState (some 1) (some 5)) c1Trace).currentPomodoroCount := by
  decide

set_option maxRecDepth 10000 in
/-- Claim C2 is a defect in the code (the spec's §9 flags it as a latent
defect): after a completed work session the local cache holds exactly
the serialized in-memory log, the log is non-empty, and every record in
it is from the current calendar day — yet reloading on a fresh page load
with no server sessions yields the empty log, not the same set of
today's records, because the filtering statement in `loadSessions` reads
the undefined name `allSessions`, throwing a `ReferenceError` that the
surrounding `catch` turns into `sessions = []`. -/
theorem loadSessions_loses_todays_cache :
    cachedOneSessionState.cache =
      some (cachedOneSessionState.sessions.map serializeSession) ∧
    cachedOneSessionState.sessions ≠ [] ∧
    (∀ r ∈ cachedOneSessionState.sessions, sameLocalDay r.startTime 60000 = true) ∧
    loadSessionsTryBlock (cachedOneSessionState.sessions.map serializeSession) 60000 =
      Except.error "ReferenceError: allSessions is not defined" ∧
    reloadedState.sessions = [] := by
  refine ⟨by decide, by decide, by decide, rfl, by decide⟩
